import Mathlib

/-! Verification of the gfx dx11 resource factory
(`src/src/backend/dx11/src/factory.rs`) against its natural-language
specification.  The Rust code is shallowly embedded: pure computations become
Lean functions, native device calls and the external collaborators
(`data::map_*`, `mirror::reflect_shader`, the shader compiler, the state
translation module) become fields of an explicit `DeviceEnv` environment,
and `usize`/`u8` arithmetic that can overflow (together with `assert!`) is
modelled by an explicit `fatal` outcome matching Rust's debug-mode panics. -/

/-- Outcome of a fallible factory operation: success, a typed error, or a Rust
panic (`assert!` failure or checked-arithmetic overflow). -/
inductive Outcome (ε α : Type) : Type
  | ok (a : α)
  | err (e : ε)
  | fatal
deriving DecidableEq, Repr

/-- Shader stages (`gfx_core::shade::Stage`; `gfx_core` is outside the
inspected sources, the three stages are those the factory dispatches on). -/
inductive Stage
  | Vertex
  | Geometry
  | Pixel
deriving DecidableEq, Repr

/-- Buffer roles (`gfx_core::factory::BufferRole`). -/
inductive BufferRole
  | Vertex
  | Index
  | Uniform
deriving DecidableEq, Repr

/-- Buffer usage classes (`gfx_core::factory::Usage`); the factory only passes
them through `data::map_usage`, so the exact variants are immaterial. -/
inductive Usage
  | Const
  | GpuOnly
  | Dynamic
  | CpuOnly
deriving DecidableEq, Repr

/-- Bind flag set (`gfx_core::factory::Bind`): one Bool per flag of the
abstract bind-flag bitset. -/
structure BindFlags where
  vertexFlag : Bool
  indexFlag : Bool
  constantFlag : Bool
  render_target : Bool
  depth_stencil : Bool
  shader_resource : Bool
  unordered_access : Bool
deriving DecidableEq, Repr

/-- Buffer descriptor (`gfx_core::factory::BufferInfo`). Sizes and strides are
`usize` values, embedded as `Nat` (overflow is modelled at the arithmetic
sites that can overflow). -/
structure BufferInfo where
  role : BufferRole
  usage : Usage
  bind : BindFlags
  size : Nat
  stride : Nat
deriving DecidableEq, Repr

/-- Buffer creation errors (`gfx_core::factory::BufferError`), the two
variants the dx11 factory produces. -/
inductive BufferError
  | UnsupportedBind (b : BindFlags)
  | Other
deriving DecidableEq, Repr

/-- Native D3D11 bind-flag constants used by `create_buffer_internal`. -/
def D3D11_BIND_VERTEX_BUFFER : Nat := 0x1

def D3D11_BIND_INDEX_BUFFER : Nat := 0x2

def D3D11_BIND_CONSTANT_BUFFER : Nat := 0x4

/-- Native buffer descriptor (`winapi::D3D11_BUFFER_DESC`). -/
structure NativeBufferDesc where
  byteWidth : Nat
  usageCode : Nat
  bindFlags : Nat
  cpuAccessFlags : Nat
  miscFlags : Nat
  structureByteStride : Nat
deriving DecidableEq, Repr

/-- Abstract format: a (surface-format, channel-type) pair, both opaque codes
(the enumerations live in `gfx_core::format`, a pure lookup domain). -/
abbrev GFormat := Nat × Nat

/-- Reflected vertex attribute of a program
(`gfx_core::shade::AttributeVar`): the factory reads its name and slot. -/
structure AttributeVar where
  name : String
  slot : Nat
deriving DecidableEq, Repr

/-- Input element of a pipeline descriptor (`gfx_core::pso::Element`):
format and byte offset. -/
structure Element where
  format : GFormat
  offset : Nat
deriving DecidableEq, Repr

/-- Native input-layout element (`winapi::D3D11_INPUT_ELEMENT_DESC`); the
semantic-name pointer into the local character buffer is represented by the
attribute name it denotes. -/
structure InputElementDesc where
  semanticName : String
  semanticIndex : Nat
  format : Nat
  inputSlot : Nat
  alignedByteOffset : Nat
  perInstance : Bool
  instanceDataStepRate : Nat
deriving DecidableEq, Repr

/-- Pipeline creation error (`gfx_core::pso::CreationError`, a unit struct). -/
inductive CreationError
  | mk
deriving DecidableEq, Repr

/-- Depth-stencil test configuration (`gfx_core::pso::DepthStencilInfo`);
the three sub-descriptors are opaque to the factory. -/
structure DepthStencilInfo where
  depth : Option Nat
  front : Option Nat
  back : Option Nat
deriving DecidableEq, Repr

/-- Primitive topologies (`gfx_core::Primitive`). -/
inductive Primitive
  | PointList
  | LineList
  | LineStrip
  | TriangleList
  | TriangleStrip
deriving DecidableEq, Repr

/-- Native topologies (`winapi::d3dcommon::D3D11_PRIMITIVE_TOPOLOGY_*`). -/
inductive Topology
  | POINTLIST
  | LINELIST
  | LINESTRIP
  | TRIANGLELIST
  | TRIANGLESTRIP
deriving DecidableEq, Repr

/-- Anti-aliasing mode (`gfx_core::tex::AaMode`). -/
inductive AaMode
  | Single
  | Multi (samples : Nat)
  | Coverage (samples fragments : Nat)
deriving DecidableEq, Repr

/-- Texture kinds (`gfx_core::tex::Kind`). -/
inductive Kind
  | D1 (w : Nat)
  | D1Array (w d : Nat)
  | D2 (w h : Nat) (aa : AaMode)
  | D2Array (w h d : Nat) (aa : AaMode)
  | D3 (w h d : Nat)
  | Cube (w : Nat)
  | CubeArray (w d : Nat)
deriving DecidableEq, Repr

/-- Native SRV view dimensions (`winapi::D3D11_SRV_DIMENSION_*`). -/
inductive SrvDim
  | TEXTURE1D
  | TEXTURE1DARRAY
  | TEXTURE2D
  | TEXTURE2DMS
  | TEXTURE2DARRAY
  | TEXTURE2DMSARRAY
  | TEXTURE3D
  | TEXTURECUBE
  | TEXTURECUBEARRAY
deriving DecidableEq, Repr

/-- Native RTV view dimensions (`winapi::D3D11_RTV_DIMENSION_*`). -/
inductive RtvDim
  | TEXTURE1D
  | TEXTURE1DARRAY
  | TEXTURE2D
  | TEXTURE2DMS
  | TEXTURE2DARRAY
  | TEXTURE2DMSARRAY
  | TEXTURE3D
deriving DecidableEq, Repr

/-- Shader-resource view errors (`gfx_core::factory::ResourceViewError`),
the variants the dx11 factory produces. -/
inductive ResourceViewError
  | Channel (c : Nat)
  | Unsupported
deriving DecidableEq, Repr

/-- Render/depth target view errors (`gfx_core::factory::TargetViewError`),
the variants the dx11 factory produces. -/
inductive TargetViewError
  | BadLevel (l : Nat)
  | BadLayer (l : Nat)
  | Channel (c : Nat)
  | Unsupported
deriving DecidableEq, Repr

/-- Native SRV descriptor (`winapi::D3D11_SHADER_RESOURCE_VIEW_DESC`): the
four-word union is kept as the raw list the code writes. -/
structure SrvNativeDesc where
  format : Nat
  dim : SrvDim
  u : List Nat
deriving DecidableEq, Repr

/-- Native RTV descriptor (`winapi::D3D11_RENDER_TARGET_VIEW_DESC`): the
three-word union is kept as the raw list the code writes. -/
structure RtvNativeDesc where
  format : Nat
  dim : RtvDim
  u : List Nat
deriving DecidableEq, Repr

/-- Environment of external collaborators: the `data::map_*` lookup tables,
shader reflection, the SipHash content hash, the state-translation module and
the native device entry points.  A device call returning `some v` models a
SUCCEEDED HRESULT with native object `v`; `none` models failure. -/
structure DeviceEnv where
  map_bind : BindFlags → Nat
  map_usage : Usage → Nat × Nat
  map_format : GFormat → Bool → Option Nat
  createBuffer : NativeBufferDesc → Option (List Nat) → Option Nat
  createInputLayout : List InputElementDesc → List Nat → Option Nat
  compileShader : Stage → List Nat → Except Int Nat
  reflect_shader : List Nat → Nat
  siphash : List Nat → Nat
  createSrv : SrvNativeDesc → Option Nat
  createRtv : RtvNativeDesc → Option Nat
  make_rasterizer : Nat → Bool → Nat
  make_depth_stencil : DepthStencilInfo → Nat
  make_blend : List Nat → Nat

/-- Role match of `create_buffer_internal` (factory.rs lines 111-123):
native bind kind and byte size per role.  Index role demands stride 2 or 4;
Uniform role rounds the size up to 16 bytes with `(size + 0xF) & !0xF`, where
`!0xF` on a 64-bit `usize` is `0xFFFFFFFFFFFFFFF0`. -/
def roleSubindSize (info : BufferInfo) : Except BufferError (Nat × Nat) :=
  match info.role with
  | BufferRole.Vertex => .ok (D3D11_BIND_VERTEX_BUFFER, info.size)
  | BufferRole.Index =>
    if info.stride ≠ 2 ∧ info.stride ≠ 4 then .error .Other
    else .ok (D3D11_BIND_INDEX_BUFFER, info.size)
  | BufferRole.Uniform =>
    .ok (D3D11_BIND_CONSTANT_BUFFER, (info.size + 0xF) &&& 0xFFFFFFFFFFFFFFF0)

/-- Native buffer descriptor construction: `create_buffer_internal`
(factory.rs lines 106-138) up to the `CreateBuffer` device call.  The
`fatal` outcome models the `assert!(size >= info.size)` failing (which, with
the 64-bit mask model, happens exactly when `info.size + 15` overflows
`usize`, where debug Rust would already panic at the addition). -/
def buffer_native_desc (env : DeviceEnv) (info : BufferInfo) :
    Outcome BufferError NativeBufferDesc :=
  match roleSubindSize info with
  | .error e => .err e
  | .ok (subind, size) =>
    if size < info.size then .fatal
    else
      let uc := env.map_usage info.usage
      let bind := env.map_bind info.bind ||| subind
      if info.bind.render_target || info.bind.depth_stencil then
        .err (.UnsupportedBind info.bind)
      else
        .ok { byteWidth := size, usageCode := uc.1, bindFlags := bind,
              cpuAccessFlags := uc.2, miscFlags := 0, structureByteStride := 0 }

/-- Handle returned for a created buffer: the native object and the original
descriptor registered with it (`make_buffer(buf, info)`). -/
structure BufferHandle where
  object : Nat
  info : BufferInfo
deriving DecidableEq, Repr

/-- Embedding of `Factory::create_buffer_internal` (factory.rs 106-163):
descriptor validation and construction, then the native `CreateBuffer` call;
a failing device call reports `Other`. -/
def create_buffer_internal (env : DeviceEnv) (info : BufferInfo)
    (raw_data : Option (List Nat)) : Outcome BufferError BufferHandle :=
  match buffer_native_desc env info with
  | .err e => .err e
  | .fatal => .fatal
  | .ok nd =>
    match env.createBuffer nd raw_data with
    | some obj => .ok { object := obj, info := info }
    | none => .err .Other

/-- Embedding of `create_buffer_raw` (factory.rs 336-338). -/
def create_buffer_raw (env : DeviceEnv) (info : BufferInfo) :
    Outcome BufferError BufferHandle :=
  create_buffer_internal env info none

/-- Embedding of `create_buffer_const_raw` (factory.rs 340-350). -/
def create_buffer_const_raw (env : DeviceEnv) (data : List Nat) (stride : Nat)
    (role : BufferRole) (bind : BindFlags) : Outcome BufferError BufferHandle :=
  create_buffer_internal env
    { role := role, usage := Usage.Const, bind := bind,
      size := data.length, stride := stride } (some data)

/-- Masking with `0xFFFFFFFFFFFFFFF0` clears the low four bits: below `2^64`
it is exactly rounding down to a multiple of 16. -/
theorem land_mask16 (m : Nat) (h : m < 2 ^ 64) :
    m &&& 0xFFFFFFFFFFFFFFF0 = 16 * (m / 16) := by
  have hmask : (0xFFFFFFFFFFFFFFF0 : Nat) = (2 ^ 60 - 1) <<< 4 := by decide
  have hdiv : 16 * (m / 16) = (m >>> 4) <<< 4 := by
    rw [Nat.shiftRight_eq_div_pow, Nat.shiftLeft_eq]
    norm_num [Nat.mul_comm]
  rw [hmask, hdiv]
  apply Nat.eq_of_testBit_eq
  intro i
  rw [Nat.testBit_and, Nat.testBit_shiftLeft, Nat.testBit_shiftLeft,
    Nat.testBit_shiftRight, Nat.testBit_two_pow_sub_one]
  by_cases h4 : 4 ≤ i
  · by_cases h64 : i < 64
    · have h60 : i - 4 < 60 := by omega
      have hi : 4 + (i - 4) = i := by omega
      simp [h4, h60, hi]
    · have hbit : m.testBit i = false :=
        Nat.testBit_lt_two_pow (lt_of_lt_of_le h (Nat.pow_le_pow_right (by omega) (by omega)))
      have h60 : ¬ (i - 4 < 60) := by omega
      simp [h4, h60, hbit]
  · simp [h4]

/-- The rounded Uniform size is the division-based round-up whenever the sum
does not overflow. -/
theorem uniform_rounded_size (n : Nat) (h : n + 15 < 2 ^ 64) :
    (n + 0xF) &&& 0xFFFFFFFFFFFFFFF0 = 16 * ((n + 15) / 16) := by
  have : (0xF : Nat) = 15 := by norm_num
  rw [this]
  exact land_mask16 (n + 15) h

/-- C7: for every buffer descriptor with Index role and a stride other than 2
or 4, `create_buffer_internal` fails with `Other`, for every environment and
every combination of the remaining descriptor fields and initial data. -/
theorem c7_index_stride_other (env : DeviceEnv) (info : BufferInfo)
    (raw_data : Option (List Nat)) (hrole : info.role = BufferRole.Index)
    (h2 : info.stride ≠ 2) (h4 : info.stride ≠ 4) :
    create_buffer_internal env info raw_data = .err .Other := by
  unfold create_buffer_internal buffer_native_desc roleSubindSize
  rw [hrole]
  simp [h2, h4]

/-- Witness for C7 at a concrete descriptor: Index role with stride 5. -/
theorem c7_witness :
    create_buffer_internal
      { map_bind := fun _ => 0, map_usage := fun _ => (0, 0),
        map_format := fun _ _ => some 0, createBuffer := fun _ _ => some 1,
        createInputLayout := fun _ _ => some 1,
        compileShader := fun _ _ => .ok 1, reflect_shader := fun _ => 0,
        siphash := fun _ => 0, createSrv := fun _ => some 1,
        createRtv := fun _ => some 1, make_rasterizer := fun _ _ => 0,
        make_depth_stencil := fun _ => 0, make_blend := fun _ => 0 }
      { role := BufferRole.Index, usage := Usage.Dynamic,
        bind := { vertexFlag := false, indexFlag := false,
                  constantFlag := false, render_target := false,
                  depth_stencil := false, shader_resource := false,
                  unordered_access := false },
        size := 24, stride := 5 } none = .err .Other :=
  c7_index_stride_other _ _ none rfl (by decide) (by decide)

/-- Concrete all-succeeding collaborator environment used by witnesses and
counterexamples. -/
def env0 : DeviceEnv :=
  { map_bind := fun _ => 0, map_usage := fun _ => (0, 0),
    map_format := fun _ _ => some 0, createBuffer := fun _ _ => some 1,
    createInputLayout := fun _ _ => some 1,
    compileShader := fun _ _ => .ok 1, reflect_shader := fun _ => 0,
    siphash := fun c => c.foldl (fun a b => 2 * a + b + 1) 0,
    createSrv := fun _ => some 1, createRtv := fun _ => some 1,
    make_rasterizer := fun _ _ => 0, make_depth_stencil := fun _ => 0,
    make_blend := fun _ => 0 }

/-- Empty bind-flag set. -/
def noBind : BindFlags :=
  { vertexFlag := false, indexFlag := false, constantFlag := false,
    render_target := false, depth_stencil := false, shader_resource := false,
    unordered_access := false }

/-- Bind-flag set with only the render-target flag. -/
def rtBind : BindFlags := { noBind with render_target := true }

/-- Bind-flag set with only the depth-stencil flag. -/
def dsBind : BindFlags := { noBind with depth_stencil := true }


/-- C6: whenever `create_buffer_internal` reaches the native allocation, a
Uniform-role descriptor's byte width is the smallest multiple of 16 that is
at least the requested size, Vertex and Index roles pass the requested size
unchanged, and in every case the allocated size is at least the request. -/
theorem c6_buffer_alloc_size (env : DeviceEnv) (info : BufferInfo)
    (d : NativeBufferDesc) (h : buffer_native_desc env info = .ok d) :
    info.size ≤ d.byteWidth ∧
    ((info.role = BufferRole.Vertex ∨ info.role = BufferRole.Index) →
      d.byteWidth = info.size) ∧
    (info.role = BufferRole.Uniform →
      d.byteWidth % 16 = 0 ∧
      ∀ m, m % 16 = 0 → info.size ≤ m → d.byteWidth ≤ m) := by
  cases hrole : info.role
  case Vertex =>
    simp only [buffer_native_desc, roleSubindSize, hrole] at h
    split at h
    · exact absurd h (by simp)
    · split at h
      · exact absurd h (by simp)
      · rw [Outcome.ok.injEq] at h
        subst h
        exact ⟨le_refl _, fun _ => rfl, fun hu => absurd hu (by decide)⟩
  case Index =>
    simp only [buffer_native_desc, roleSubindSize, hrole] at h
    split at h
    · exact absurd h (by simp)
    · rename_i subind size heq
      split at heq
      · exact absurd heq (by simp)
      · rw [Except.ok.injEq, Prod.mk.injEq] at heq
        obtain ⟨hsub, hsz⟩ := heq
        subst hsz
        split at h
        · exact absurd h (by simp)
        · split at h
          · exact absurd h (by simp)
          · rw [Outcome.ok.injEq] at h
            subst h
            exact ⟨le_refl _, fun _ => rfl, fun hu => absurd hu (by decide)⟩
  case Uniform =>
    simp only [buffer_native_desc, roleSubindSize, hrole] at h
    split at h
    case isTrue => exact absurd h (by simp)
    case isFalse hnotlt =>
      split at h
      · exact absurd h (by simp)
      · rw [Outcome.ok.injEq] at h
        subst h
        simp only [not_lt] at hnotlt
        have hle : (info.size + 0xF) &&& 0xFFFFFFFFFFFFFFF0 ≤ 0xFFFFFFFFFFFFFFF0 :=
          Nat.and_le_right
        have h64 : info.size + 15 < 2 ^ 64 := by
          have hs : info.size ≤ 0xFFFFFFFFFFFFFFF0 := le_trans hnotlt hle
          norm_num at hs ⊢
          omega
        have hval := uniform_rounded_size info.size h64
        refine ⟨hnotlt, fun hc => ?_, fun _ => ?_⟩
        · rcases hc with hc | hc <;> exact absurd hc (by decide)
        · constructor
          · show ((info.size + 0xF) &&& 0xFFFFFFFFFFFFFFF0) % 16 = 0
            rw [hval]
            omega
          · intro m hm hsm
            show ((info.size + 0xF) &&& 0xFFFFFFFFFFFFFFF0) ≤ m
            rw [hval]
            omega

/-- Witness for C6: a Uniform-role request of 20 bytes allocates 32 bytes. -/
theorem c6_witness :
    buffer_native_desc env0
        { role := BufferRole.Uniform, usage := Usage.Const, bind := noBind,
          size := 20, stride := 0 } =
      .ok { byteWidth := 32, usageCode := 0, bindFlags := 4,
            cpuAccessFlags := 0, miscFlags := 0, structureByteStride := 0 } ∧
    (20 : Nat) ≤ 32 ∧ (32 : Nat) % 16 = 0 :=
  have h : buffer_native_desc env0
      { role := BufferRole.Uniform, usage := Usage.Const, bind := noBind,
        size := 20, stride := 0 } =
      .ok { byteWidth := 32, usageCode := 0, bindFlags := 4,
            cpuAccessFlags := 0, miscFlags := 0, structureByteStride := 0 } := by
    decide
  ⟨h, (c6_buffer_alloc_size env0 _ _ h).1,
    ((c6_buffer_alloc_size env0 _ _ h).2.2 rfl).1⟩

/-- Descriptor exhibiting the C3 counterexample: Index role, stride 3, with
the render-target bind flag set. -/
def c3info : BufferInfo :=
  { role := BufferRole.Index, usage := Usage.Dynamic, bind := rtBind,
    size := 12, stride := 3 }

/-- C3 counterexample: an Index-role buffer with stride 3 and the
render-target bind flag fails with `Other` (the stride check runs before the
bind-flag check), not with `UnsupportedBind` as the claim states. -/
theorem c3_counterexample :
    create_buffer_internal env0 c3info none = .err .Other ∧
    ∀ b, create_buffer_internal env0 c3info none ≠
      .err (.UnsupportedBind b) := by
  have h : create_buffer_internal env0 c3info none = .err .Other := by decide
  refine ⟨h, fun b hb => ?_⟩
  rw [h] at hb
  exact absurd hb (by simp)

/-- C3 amended: a buffer descriptor with render-target or depth-stencil bind
flags always fails with `UnsupportedBind`, except that an Index role with
stride outside {2,4} fails earlier with `Other`; the Uniform-role size
round-up must also not overflow `usize` (otherwise the code panics before
reaching the bind check). -/
theorem c3_amended (env : DeviceEnv) (info : BufferInfo)
    (raw_data : Option (List Nat))
    (hbind : info.bind.render_target = true ∨ info.bind.depth_stencil = true)
    (hstride : info.role = BufferRole.Index →
      info.stride = 2 ∨ info.stride = 4)
    (hsize : info.size + 15 < 2 ^ 64) :
    create_buffer_internal env info raw_data =
      .err (.UnsupportedBind info.bind) := by
  have hbb : (info.bind.render_target || info.bind.depth_stencil) = true := by
    rcases hbind with h | h <;> simp [h]
  unfold create_buffer_internal buffer_native_desc roleSubindSize
  cases hrole : info.role
  case Vertex => simp [hbb]
  case Index =>
    rcases hstride hrole with h | h <;> simp [h, hbb]
  case Uniform =>
    have hval := uniform_rounded_size info.size hsize
    have hge : info.size ≤ (info.size + 0xF) &&& 0xFFFFFFFFFFFFFFF0 := by
      rw [hval]; omega
    simp [Nat.not_lt.mpr hge, hbb]

/-- Witness for C3's amended theorem: a Vertex-role buffer with the
depth-stencil bind flag fails with `UnsupportedBind`. -/
theorem c3_amended_witness :
    dsBind.depth_stencil = true ∧ (8 : Nat) + 15 < 2 ^ 64 ∧
    create_buffer_internal env0
        { role := BufferRole.Vertex, usage := Usage.GpuOnly, bind := dsBind,
          size := 8, stride := 0 } none = .err (.UnsupportedBind dsBind) :=
  ⟨by decide, by norm_num,
    c3_amended env0
      { role := BufferRole.Vertex, usage := Usage.GpuOnly, bind := dsBind,
        size := 8, stride := 0 } none (Or.inr (by decide))
      (fun hc => nomatch hc) (by norm_num)⟩

/-- Vertex-shader cache of a factory: `Map<u64, Vec<u8>>` with the content
hash as key and the retained bytecode as value, embedded as an association
list with at most one entry per key. -/
abbrev VsCache := List (Nat × List Nat)

/-- Key lookup in the vertex-shader cache (`Map::get`). -/
def mapFind? : VsCache → Nat → Option (List Nat)
  | [], _ => none
  | (k, v) :: rest, key => if k = key then some v else mapFind? rest key

/-- Key insertion in the vertex-shader cache (`Map::insert`): replaces the
value of an existing key. -/
def mapInsert : VsCache → Nat → List Nat → VsCache
  | [], k, v => [(k, v)]
  | (k', v') :: rest, k, v =>
    if k' = k then (k, v) :: rest else (k', v') :: mapInsert rest k v

/-- Lookup after insertion of the same key yields the inserted value. -/
theorem mapFind_mapInsert (c : VsCache) (k : Nat) (v : List Nat) :
    mapFind? (mapInsert c k v) k = some v := by
  induction c with
  | nil => simp [mapInsert, mapFind?]
  | cons hd tl ih =>
    obtain ⟨k', v'⟩ := hd
    by_cases hk : k' = k
    · simp [mapInsert, hk, mapFind?]
    · simp [mapInsert, hk, mapFind?, ih]

/-- Pipeline descriptor (`gfx_core::pso::Descriptor`): the fields the dx11
factory reads.  Each attribute slot is either unbound (`none`) or carries an
element and an instance rate. -/
structure PsoDescriptor where
  primitive : Primitive
  attributes : List (Option (Element × Nat))
  rasterizer : Nat
  scissor : Bool
  depth_stencil : Option (Nat × DepthStencilInfo)
  color_targets : List Nat
deriving DecidableEq, Repr

/-- What `create_pipeline_state_raw` reads from the program handle: the
reflected vertex attributes of `get_info()` and the stored vertex-shader
content hash. -/
structure ProgramModel where
  vertex_attributes : List AttributeVar
  vs_hash : Nat
deriving DecidableEq, Repr

/-- Pipeline state value (`Pipeline` struct filled at factory.rs 524-541). -/
structure PipelineModel where
  topology : Topology
  layout : Nat
  attributes : List (Option (Element × Nat))
  program : ProgramModel
  rasterizer : Nat
  depth_stencil : Nat
  blend : Nat
deriving DecidableEq, Repr

/-- Topology match of `create_pipeline_state_raw` (factory.rs 525-531),
exhaustive with no default arm. -/
def map_topology : Primitive → Topology
  | Primitive.PointList => Topology.POINTLIST
  | Primitive.LineList => Topology.LINELIST
  | Primitive.LineStrip => Topology.LINESTRIP
  | Primitive.TriangleList => Topology.TRIANGLELIST
  | Primitive.TriangleStrip => Topology.TRIANGLESTRIP

/-- Input-layout loop of `create_pipeline_state_raw` (factory.rs 464-498)
over the zip of the program's reflected attributes with the descriptor's
attribute bindings: unbound slots are skipped, a bound element with an odd
byte offset (`elem.offset & 1 != 0`) or an unmappable format aborts with
`CreationError`, otherwise a native input element is accumulated. -/
def build_input_layout (env : DeviceEnv) :
    List (AttributeVar × Option (Element × Nat)) →
    Except CreationError (List InputElementDesc)
  | [] => .ok []
  | (attrib, at_desc) :: rest =>
    match at_desc with
    | none => build_input_layout env rest
    | some (elem, irate) =>
      if elem.offset &&& 1 ≠ 0 then .error .mk
      else
        match env.map_format elem.format false with
        | none => .error .mk
        | some fm =>
          match build_input_layout env rest with
          | .error e => .error e
          | .ok tailLayouts =>
            .ok ({ semanticName := attrib.name, semanticIndex := 0,
                   format := fm, inputSlot := attrib.slot,
                   alignedByteOffset := elem.offset,
                   perInstance := irate ≠ 0,
                   instanceDataStepRate := irate } :: tailLayouts)

/-- Substituted depth-stencil descriptor when none is supplied
(`dummy_dsi`, factory.rs 521). -/
def dummy_dsi : DepthStencilInfo := { depth := none, front := none, back := none }

/-- Embedding of `Factory::create_pipeline_state_raw` (factory.rs 454-543):
builds the input-element list, looks the program's vertex-shader hash up in
the cache (a miss is a hard `CreationError`), submits the retained bytecode
and the elements to `CreateInputLayout`, then assembles the pipeline value
with the mapped topology and the translated state objects. -/
def create_pipeline_state_raw (env : DeviceEnv) (vs_cache : VsCache)
    (program : ProgramModel) (desc : PsoDescriptor) :
    Except CreationError PipelineModel :=
  match build_input_layout env (program.vertex_attributes.zip desc.attributes) with
  | .error e => .error e
  | .ok layouts =>
    match mapFind? vs_cache program.vs_hash with
    | none => .error .mk
    | some vs_bin =>
      match env.createInputLayout layouts vs_bin with
      | none => .error .mk
      | some vertex_layout =>
        .ok { topology := map_topology desc.primitive,
              layout := vertex_layout,
              attributes := desc.attributes,
              program := program,
              rasterizer := env.make_rasterizer desc.rasterizer desc.scissor,
              depth_stencil := env.make_depth_stencil
                (match desc.depth_stencil with
                 | some (_, dsi) => dsi
                 | none => dummy_dsi),
              blend := env.make_blend desc.color_targets }

/-- A vertex-shader cache miss makes pipeline creation fail (shared by the
cache-invariant and factory-clone theorems). -/
theorem pipeline_cache_miss_err (env : DeviceEnv) (cache : VsCache)
    (program : ProgramModel) (desc : PsoDescriptor)
    (h : mapFind? cache program.vs_hash = none) :
    create_pipeline_state_raw env cache program desc = .error .mk := by
  unfold create_pipeline_state_raw
  cases hb : build_input_layout env (program.vertex_attributes.zip desc.attributes) with
  | error e => cases e; rfl
  | ok layouts => rw [h]

/-- C1: a pipeline-state creation call whose program vertex-shader hash has
no entry in the vertex-shader cache returns `CreationError`, and a call never
succeeds unless the hash has a live cache entry at the time of the call. -/
theorem c1_pipeline_requires_cached_vs (env : DeviceEnv) (cache : VsCache)
    (program : ProgramModel) (desc : PsoDescriptor) :
    (mapFind? cache program.vs_hash = none →
      create_pipeline_state_raw env cache program desc = .error .mk) ∧
    (∀ p, create_pipeline_state_raw env cache program desc = .ok p →
      (mapFind? cache program.vs_hash).isSome) := by
  refine ⟨fun h => pipeline_cache_miss_err env cache program desc h,
    fun p hp => ?_⟩
  cases hm : mapFind? cache program.vs_hash with
  | some v => simp
  | none =>
    rw [pipeline_cache_miss_err env cache program desc hm] at hp
    exact absurd hp (by simp)

/-- Program model with no reflected attributes and hash 7, used by witnesses. -/
def prog1 : ProgramModel := { vertex_attributes := [], vs_hash := 7 }

/-- Minimal pipeline descriptor used by witnesses. -/
def desc1 : PsoDescriptor :=
  { primitive := Primitive.TriangleList, attributes := [], rasterizer := 0,
    scissor := false, depth_stencil := none, color_targets := [] }

/-- Witness for C1: with an empty cache, pipeline creation fails. -/
theorem c1_witness :
    mapFind? [] prog1.vs_hash = none ∧
    create_pipeline_state_raw env0 [] prog1 desc1 = .error .mk :=
  ⟨rfl, (c1_pipeline_requires_cached_vs env0 [] prog1 desc1).1 rfl⟩

/-- Factory state (factory.rs 70-79): raw device pointer and shared store are
represented by identifiers (equal identifier = same shared native object);
`frame_handles` is a fresh empty `handle::Manager` owning no observable state
of the functions under study, so it is not tracked. -/
structure Factory where
  device : Nat
  share : Nat
  vs_cache : VsCache
  use_texture_format_hint : Bool
deriving DecidableEq, Repr

/-- Embedding of `Factory::new` (factory.rs 96-104): fresh empty
vertex-shader cache, format hint off. -/
def Factory.new (device share : Nat) : Factory :=
  { device := device, share := share, vs_cache := [],
    use_texture_format_hint := false }

/-- Embedding of `Clone for Factory` (factory.rs 81-86): `AddRef` the same
device and rebuild through `Factory::new` with the same shared store. -/
def Factory.clone (f : Factory) : Factory :=
  Factory.new f.device f.share

/-- C10: a cloned factory shares the native device and the shared
registration store but starts with an empty vertex-shader cache, so a
pipeline creation that succeeds on the original fails with `CreationError`
on the clone. -/
theorem c10_clone_shares_device_not_cache (f : Factory) (env : DeviceEnv)
    (program : ProgramModel) (desc : PsoDescriptor) :
    f.clone.device = f.device ∧ f.clone.share = f.share ∧
    f.clone.vs_cache = [] ∧
    ((∃ p, create_pipeline_state_raw env f.vs_cache program desc = .ok p) →
      create_pipeline_state_raw env f.clone.vs_cache program desc =
        .error .mk) :=
  ⟨rfl, rfl, rfl, fun _ => pipeline_cache_miss_err env [] program desc rfl⟩

/-- Factory whose cache holds bytecode for hash 7, used by the C10 witness. -/
def f10 : Factory :=
  { device := 1, share := 2, vs_cache := [(7, [9])],
    use_texture_format_hint := false }

/-- Witness for C10: pipeline creation succeeds on `f10` and fails on its
clone. -/
theorem c10_witness :
    (∃ p, create_pipeline_state_raw env0 f10.vs_cache prog1 desc1 = .ok p) ∧
    create_pipeline_state_raw env0 f10.clone.vs_cache prog1 desc1 =
      .error .mk :=
  have hok : ∃ p, create_pipeline_state_raw env0 f10.vs_cache prog1 desc1 =
      .ok p := ⟨_, rfl⟩
  ⟨hok, (c10_clone_shares_device_not_cache f10 env0 prog1 desc1).2.2.2 hok⟩

/-- A bound attribute with an odd byte offset anywhere in the zipped list
makes the input-layout loop fail. -/
theorem build_input_layout_err_of_odd (env : DeviceEnv)
    (l : List (AttributeVar × Option (Element × Nat)))
    (h : ∃ a e ir, (a, some (e, ir)) ∈ l ∧ e.offset % 2 = 1) :
    build_input_layout env l = .error .mk := by
  induction l with
  | nil =>
    obtain ⟨a, e, ir, hmem, _⟩ := h
    exact absurd hmem (by simp)
  | cons hd tl ih =>
    obtain ⟨a, e, ir, hmem, hodd⟩ := h
    obtain ⟨a', od⟩ := hd
    match od with
    | none =>
      have hmem' : (a, some (e, ir)) ∈ tl := by
        rcases List.mem_cons.mp hmem with hh | ht
        · simp at hh
        · exact ht
      simpa [build_input_layout] using ih ⟨a, e, ir, hmem', hodd⟩
    | some (e', ir') =>
      by_cases ho : e'.offset &&& 1 ≠ 0
      · simp only [build_input_layout]
        rw [if_pos ho]
      · have he' : e'.offset % 2 = 0 := by
          rw [Nat.and_one_is_mod] at ho
          omega
        have hmem' : (a, some (e, ir)) ∈ tl := by
          rcases List.mem_cons.mp hmem with hh | ht
          · simp only [Prod.mk.injEq, Option.some.injEq] at hh
            obtain ⟨-, he, -⟩ := hh
            rw [he] at hodd
            omega
          · exact ht
        have ht := ih ⟨a, e, ir, hmem', hodd⟩
        cases hf : env.map_format e'.format false <;>
          simp [build_input_layout, ho, hf, ht]

/-- If every bound attribute has an even offset and a mappable format, the
input-layout loop succeeds (unbound slots are skipped). -/
theorem build_input_layout_ok_of_even (env : DeviceEnv)
    (l : List (AttributeVar × Option (Element × Nat)))
    (h : ∀ a e ir, (a, some (e, ir)) ∈ l →
      e.offset % 2 = 0 ∧ (env.map_format e.format false).isSome) :
    ∃ ls, build_input_layout env l = .ok ls := by
  induction l with
  | nil => exact ⟨[], rfl⟩
  | cons hd tl ih =>
    obtain ⟨a', od⟩ := hd
    obtain ⟨ls, hls⟩ := ih (fun a e ir hm => h a e ir (List.mem_cons_of_mem _ hm))
    match od with
    | none => exact ⟨ls, by simpa [build_input_layout] using hls⟩
    | some (e', ir') =>
      obtain ⟨hev, hfm⟩ := h a' e' ir' (List.mem_cons_self _ _)
      have ho : ¬ e'.offset &&& 1 ≠ 0 := by
        rw [Nat.and_one_is_mod]
        omega
      obtain ⟨fm, hfm'⟩ := Option.isSome_iff_exists.mp hfm
      refine ⟨({ semanticName := a'.name, semanticIndex := 0, format := fm,
                 inputSlot := a'.slot, alignedByteOffset := e'.offset,
                 perInstance := ir' ≠ 0, instanceDataStepRate := ir' } :: ls),
        ?_⟩
      simp only [build_input_layout]
      rw [if_neg ho, hfm', hls]

/-- Successful path of pipeline creation, given a built layout list, a cache
hit and a successful native layout call (shared success-shape lemma). -/
theorem create_pipeline_state_raw_eq_ok (env : DeviceEnv) (cache : VsCache)
    (program : ProgramModel) (desc : PsoDescriptor)
    (ls : List InputElementDesc) (bin : List Nat) (vl : Nat)
    (hls : build_input_layout env
      (program.vertex_attributes.zip desc.attributes) = .ok ls)
    (hbin : mapFind? cache program.vs_hash = some bin)
    (hvl : env.createInputLayout ls bin = some vl) :
    create_pipeline_state_raw env cache program desc = .ok
      { topology := map_topology desc.primitive, layout := vl,
        attributes := desc.attributes, program := program,
        rasterizer := env.make_rasterizer desc.rasterizer desc.scissor,
        depth_stencil := env.make_depth_stencil
          (match desc.depth_stencil with
           | some (_, dsi) => dsi
           | none => dummy_dsi),
        blend := env.make_blend desc.color_targets } := by
  unfold create_pipeline_state_raw
  simp only [hls, hbin, hvl]

/-- C8: a bound attribute with an odd element byte offset always makes
pipeline creation fail with `CreationError`; if instead every bound
attribute has an even offset and a mappable format (unbound attributes being
skipped), and the cache and device cooperate, the call succeeds. -/
theorem c8_attribute_offset_alignment (env : DeviceEnv) (cache : VsCache)
    (program : ProgramModel) (desc : PsoDescriptor) :
    ((∃ a e ir,
        (a, some (e, ir)) ∈ program.vertex_attributes.zip desc.attributes ∧
        e.offset % 2 = 1) →
      create_pipeline_state_raw env cache program desc = .error .mk) ∧
    ((∀ a e ir,
        (a, some (e, ir)) ∈ program.vertex_attributes.zip desc.attributes →
        e.offset % 2 = 0 ∧ (env.map_format e.format false).isSome) →
      (mapFind? cache program.vs_hash).isSome →
      (∀ ls bin, (env.createInputLayout ls bin).isSome) →
      ∃ p, create_pipeline_state_raw env cache program desc = .ok p) := by
  constructor
  · intro h
    unfold create_pipeline_state_raw
    rw [build_input_layout_err_of_odd env _ h]
  · intro hgood hcache hdev
    obtain ⟨ls, hls⟩ := build_input_layout_ok_of_even env _ hgood
    obtain ⟨bin, hbin⟩ := Option.isSome_iff_exists.mp hcache
    obtain ⟨vl, hvl⟩ := Option.isSome_iff_exists.mp (hdev ls bin)
    exact ⟨_, create_pipeline_state_raw_eq_ok env cache program desc
      ls bin vl hls hbin hvl⟩

/-- Reflected attribute used by the C8 witness. -/
def attr8 : AttributeVar := { name := "pos", slot := 0 }

/-- Descriptor binding the attribute at even byte offset 4. -/
def desc8even : PsoDescriptor :=
  { primitive := Primitive.TriangleList,
    attributes := [some ({ format := (0, 0), offset := 4 }, 0)],
    rasterizer := 0, scissor := false, depth_stencil := none,
    color_targets := [] }

/-- Descriptor binding the attribute at odd byte offset 3. -/
def desc8odd : PsoDescriptor :=
  { desc8even with attributes := [some ({ format := (0, 0), offset := 3 }, 0)] }

/-- Program with one reflected attribute and hash 7. -/
def prog8 : ProgramModel := { vertex_attributes := [attr8], vs_hash := 7 }

/-- Cache holding bytecode for hash 7. -/
def cache8 : VsCache := [(7, [1, 2])]

/-- Witness for C8: offset 4 succeeds, offset 3 fails. -/
theorem c8_witness :
    (∃ p, create_pipeline_state_raw env0 cache8 prog8 desc8even = .ok p) ∧
    create_pipeline_state_raw env0 cache8 prog8 desc8odd = .error .mk := by
  constructor
  · refine (c8_attribute_offset_alignment env0 cache8 prog8 desc8even).2
      ?_ (by decide) (fun ls bin => rfl)
    intro a e ir hm
    simp only [prog8, desc8even, attr8, List.zip_cons_cons, List.zip_nil_right,
      List.mem_singleton, Prod.mk.injEq, Option.some.injEq] at hm
    obtain ⟨-, he, -⟩ := hm
    subst he
    exact ⟨by decide, by decide⟩
  · exact (c8_attribute_offset_alignment env0 cache8 prog8 desc8odd).1
      ⟨attr8, { format := (0, 0), offset := 3 }, 0, by decide, by decide⟩

/-- Shader creation errors (`gfx_core::shade::CreateShaderError`), the
variant the dx11 factory produces. -/
inductive CreateShaderError
  | CompilationFailed (msg : String)
deriving DecidableEq, Repr

/-- Shader value (`Shader` struct, filled at factory.rs 396-400): native
object, reflection metadata and the bytecode's content hash. -/
structure ShaderModel where
  object : Nat
  reflection : Nat
  code_hash : Nat
deriving DecidableEq, Repr

/-- Embedding of `Factory::create_shader` (factory.rs 352-405): compile by
stage; on success reflect the bytecode, hash it with SipHash (a fixed
deterministic function of the bytecode, `env.siphash`), retain the bytecode
in the vertex-shader cache when and only when the stage is Vertex, and
return the shader value; on failure report `CompilationFailed` with the
HRESULT. -/
def create_shader (env : DeviceEnv) (f : Factory) (stage : Stage)
    (code : List Nat) : Factory × Except CreateShaderError ShaderModel :=
  match env.compileShader stage code with
  | .ok object =>
    let reflection := env.reflect_shader code
    let hash := env.siphash code
    let f' := if stage = Stage.Vertex then
        { f with vs_cache := mapInsert f.vs_cache hash code }
      else f
    (f', .ok { object := object, reflection := reflection, code_hash := hash })
  | .error hr => (f, .error (.CompilationFailed ("code " ++ toString hr)))

/-- C9: two sequential vertex-shader creations from the same bytecode yield
the same content hash, and after each call the bytecode is retrievable from
the vertex-shader cache under that hash. -/
theorem c9_shader_cache_roundtrip (env : DeviceEnv) (f0 : Factory)
    (code : List Nat) (obj : Nat)
    (hc : env.compileShader Stage.Vertex code = .ok obj) :
    ∃ f1 f2 s1 s2,
      create_shader env f0 Stage.Vertex code = (f1, .ok s1) ∧
      create_shader env f1 Stage.Vertex code = (f2, .ok s2) ∧
      s1.code_hash = s2.code_hash ∧
      mapFind? f1.vs_cache s1.code_hash = some code ∧
      mapFind? f2.vs_cache s2.code_hash = some code := by
  refine ⟨{ f0 with vs_cache := mapInsert f0.vs_cache (env.siphash code) code },
    { f0 with vs_cache := mapInsert (mapInsert f0.vs_cache (env.siphash code) code) (env.siphash code) code },
    { object := obj, reflection := env.reflect_shader code,
      code_hash := env.siphash code },
    { object := obj, reflection := env.reflect_shader code,
      code_hash := env.siphash code },
    ?_, ?_, rfl, ?_, ?_⟩
  · simp [create_shader, hc]
  · simp [create_shader, hc]
  · exact mapFind_mapInsert _ _ _
  · exact mapFind_mapInsert _ _ _

/-- Witness for C9 on concrete bytecode `[3, 1, 4]`. -/
theorem c9_witness :
    env0.compileShader Stage.Vertex [3, 1, 4] = .ok 1 ∧
    ∃ f1 f2 s1 s2,
      create_shader env0 (Factory.new 0 0) Stage.Vertex [3, 1, 4] =
        (f1, .ok s1) ∧
      create_shader env0 f1 Stage.Vertex [3, 1, 4] = (f2, .ok s2) ∧
      s1.code_hash = s2.code_hash ∧
      mapFind? f1.vs_cache s1.code_hash = some [3, 1, 4] ∧
      mapFind? f2.vs_cache s2.code_hash = some [3, 1, 4] :=
  ⟨rfl, c9_shader_cache_roundtrip env0 (Factory.new 0 0) [3, 1, 4] 1 rfl⟩

/-- Native program value (`Program` struct, filled at factory.rs 430-448):
raw shader pointers are identifiers, `gs` is `none` for the null pointer. -/
structure ProgramNative where
  vs : Nat
  gs : Option Nat
  ps : Nat
  vs_hash : Nat
deriving DecidableEq, Repr

/-- Shader set (`gfx_core::ShaderSet`): the two variants the factory
matches. -/
inductive ShaderSet
  | Simple (vs ps : ShaderModel)
  | Geometry (vs gs ps : ShaderModel)
deriving DecidableEq, Repr

/-- Observable result of `create_program`: the program value, the native
objects whose reference counts were incremented (`AddRef` calls, in order),
and the `(stage, reflection)` pairs passed to `mirror::populate_info`, in
order. -/
structure ProgramResult where
  prog : ProgramNative
  addrefs : List Nat
  info_stages : List (Stage × Nat)
deriving DecidableEq, Repr

/-- Embedding of `Factory::create_program` (factory.rs 407-452).  Note that
in the Geometry arm the source stores `vs.object` — not `gs.object` — in the
`gs` field (factory.rs line 445), while `AddRef` is called on all three
objects. -/
def create_program (shader_set : ShaderSet) : ProgramResult :=
  match shader_set with
  | .Simple vs ps =>
    { prog := { vs := vs.object, gs := none, ps := ps.object,
                vs_hash := vs.code_hash },
      addrefs := [vs.object, ps.object],
      info_stages := [(Stage.Vertex, vs.reflection),
                      (Stage.Pixel, ps.reflection)] }
  | .Geometry vs gs ps =>
    { prog := { vs := vs.object, gs := some vs.object, ps := ps.object,
                vs_hash := vs.code_hash },
      addrefs := [vs.object, gs.object, ps.object],
      info_stages := [(Stage.Vertex, vs.reflection),
                      (Stage.Geometry, gs.reflection),
                      (Stage.Pixel, ps.reflection)] }

/-- C2: at the concrete Geometry shader set with distinct native objects
10 (vertex), 20 (geometry), 30 (pixel), `create_program` stores the vertex
shader's object 10 in the geometry-shader field instead of 20, even though
all three objects get their reference counts incremented — the claim that
each stage's native object is stored in its own field fails on the code. -/
theorem c2_create_program_gs_field_bug :
    (create_program (.Geometry
        { object := 10, reflection := 0, code_hash := 111 }
        { object := 20, reflection := 1, code_hash := 222 }
        { object := 30, reflection := 2, code_hash := 333 })).prog.gs =
      some 10 ∧
    (create_program (.Geometry
        { object := 10, reflection := 0, code_hash := 111 }
        { object := 20, reflection := 1, code_hash := 222 }
        { object := 30, reflection := 2, code_hash := 333 })).prog.gs ≠
      some 20 ∧
    (create_program (.Geometry
        { object := 10, reflection := 0, code_hash := 111 }
        { object := 20, reflection := 1, code_hash := 222 }
        { object := 30, reflection := 2, code_hash := 333 })).addrefs =
      [10, 20, 30] := by
  decide

/-- Modelled from the spec: the SRV view descriptor
(`gfx_core::tex::ResourceDesc`, outside the inspected sources).  The spec's
ViewDescriptor carries a channel-type, a mip range `(min, max)` and an
optional array-layer index.  The dx11 SRV code reads only `channel`, `min`
and `max`. -/
structure ResourceDesc where
  channel : Nat
  layer : Option Nat
  min : Nat
  max : Nat
deriving DecidableEq, Repr

/-- Kind match of `view_texture_as_shader_resource_raw` (factory.rs
571-590): native dimension, layer count and whether the dimension carries
mip-level parameters. -/
def srv_dim_layers (kind : Kind) : SrvDim × Nat × Bool :=
  match kind with
  | Kind.D1 _ => (.TEXTURE1D, 1, true)
  | Kind.D1Array _ d => (.TEXTURE1DARRAY, d, true)
  | Kind.D2 _ _ AaMode.Single => (.TEXTURE2D, 1, true)
  | Kind.D2 _ _ _ => (.TEXTURE2DMS, 1, false)
  | Kind.D2Array _ _ d AaMode.Single => (.TEXTURE2DARRAY, d, true)
  | Kind.D2Array _ _ d _ => (.TEXTURE2DMSARRAY, d, false)
  | Kind.D3 _ _ _ => (.TEXTURE3D, 1, true)
  | Kind.Cube _ => (.TEXTURECUBE, 1, true)
  | Kind.CubeArray _ d => (.TEXTURECUBEARRAY, d, true)

/-- Native SRV descriptor construction (factory.rs 592-605): format lookup
(miss is a `Channel` error), then the four-word union
`[min, max + 1 - min, 0, layers]` when the dimension has levels (guarded by
`assert!(desc.max >= desc.min)`; `Level` is `u8`, so `max + 1` at
`max = 255` is a debug overflow panic), or `[0, layers, 0, 0]` otherwise. -/
def srv_native_desc (env : DeviceEnv) (texFormat : Nat) (kind : Kind)
    (desc : ResourceDesc) : Outcome ResourceViewError SrvNativeDesc :=
  let dls := srv_dim_layers kind
  match env.map_format (texFormat, desc.channel) false with
  | none => .err (.Channel desc.channel)
  | some fm =>
    if dls.2.2 then
      if desc.max ≥ desc.min then
        if desc.max + 1 ≤ 255 then
          .ok { format := fm, dim := dls.1,
                u := [desc.min, desc.max + 1 - desc.min, 0, dls.2.1] }
        else .fatal
      else .fatal
    else
      .ok { format := fm, dim := dls.1, u := [0, dls.2.1, 0, 0] }

/-- Embedding of `Factory::view_texture_as_shader_resource_raw`
(factory.rs 565-617): build the native descriptor, then the
`CreateShaderResourceView` device call; a failing call is `Unsupported`. -/
def view_texture_as_shader_resource_raw (env : DeviceEnv) (texFormat : Nat)
    (kind : Kind) (desc : ResourceDesc) :
    Outcome ResourceViewError (Nat × SrvNativeDesc) :=
  match srv_native_desc env texFormat kind desc with
  | .err e => .err e
  | .fatal => .fatal
  | .ok nd =>
    match env.createSrv nd with
    | some v => .ok (v, nd)
    | none => .err .Unsupported

/-- Modelled from the spec: position of the first-array-slice word of a
2D-array SRV union (`D3D11_TEX2D_ARRAY_SRV`: MostDetailedMip, MipLevels,
FirstArraySlice, ArraySize); the spec describes the addressing tuple as
(mip level, first-array-slice, array-slice-count). -/
def tex2dArraySrv_firstSlice (u : List Nat) : Nat := u.getD 2 0

/-- Modelled from the spec: position of the array-slice-count word of a
2D-array SRV union. -/
def tex2dArraySrv_arraySize (u : List Nat) : Nat := u.getD 3 0

/-- View descriptor exhibiting the C4 counterexample: layer selector
`Some 2`, mip range [0,0]. -/
def rdesc4 : ResourceDesc := { channel := 0, layer := some 2, min := 0, max := 0 }

/-- C4 counterexample: an SRV on a single-sample D2Array texture with 4
layers and layer selector `Some 2` resolves to the 2D-array dimension with
first-array-slice 0 and array size 4 — the whole array, not the single-slice
range [2,3): the SRV path ignores the layer selector. -/
theorem c4_counterexample :
    srv_native_desc env0 0 (Kind.D2Array 8 8 4 AaMode.Single) rdesc4 =
      .ok { format := 0, dim := SrvDim.TEXTURE2DARRAY, u := [0, 1, 0, 4] } ∧
    tex2dArraySrv_firstSlice [0, 1, 0, 4] ≠ 2 ∧
    tex2dArraySrv_arraySize [0, 1, 0, 4] ≠ 1 := by
  decide

/-- C4 amended: the SRV resolver ignores the layer selector entirely; on a
single-sample D2Array texture with n layers it resolves the 2D-array
dimension addressing all n slices starting at slice 0 (union
`[min, max + 1 - min, 0, n]`), for every layer selector. -/
theorem c4_amended_srv_ignores_layer (env : DeviceEnv) (tf w h n : Nat)
    (desc : ResourceDesc) (fm : Nat)
    (hfm : env.map_format (tf, desc.channel) false = some fm)
    (hminmax : desc.min ≤ desc.max) (hmax : desc.max + 1 ≤ 255) :
    (∀ l, srv_native_desc env tf (Kind.D2Array w h n AaMode.Single)
        { desc with layer := l } =
      srv_native_desc env tf (Kind.D2Array w h n AaMode.Single) desc) ∧
    srv_native_desc env tf (Kind.D2Array w h n AaMode.Single) desc =
      .ok { format := fm, dim := SrvDim.TEXTURE2DARRAY,
            u := [desc.min, desc.max + 1 - desc.min, 0, n] } := by
  constructor
  · intro l
    simp [srv_native_desc]
  · simp [srv_native_desc, srv_dim_layers, hfm, hminmax, hmax]

/-- Witness for C4's amended theorem on a 3-layer texture with mip range
[0,1] and layer selector none. -/
theorem c4_amended_witness :
    env0.map_format (0, 0) false = some 0 ∧
    srv_native_desc env0 0 (Kind.D2Array 4 4 3 AaMode.Single)
        { channel := 0, layer := none, min := 0, max := 1 } =
      .ok { format := 0, dim := SrvDim.TEXTURE2DARRAY, u := [0, 2, 0, 3] } :=
  ⟨rfl, (c4_amended_srv_ignores_layer env0 0 4 4 3
    { channel := 0, layer := none, min := 0, max := 1 } 0 rfl
    (by decide) (by decide)).2⟩

/-- Modelled from the spec: the RTV view descriptor
(`gfx_core::tex::RenderDesc`, outside the inspected sources): channel-type,
single mip level, optional array-layer index. -/
structure RenderDesc where
  channel : Nat
  level : Nat
  layer : Option Nat
deriving DecidableEq, Repr

/-- Dimension/addressing match of `view_texture_as_render_target_raw`
(factory.rs 632-665), arm for arm and in source order; an arm whose guard
fails falls through to the catch-all `BadLevel`/`BadLayer` arms exactly as
in the source (no intermediate arm can match the same pattern). -/
def rtv_dim_extra (kind : Kind) (layer : Option Nat) (level : Nat) :
    Except TargetViewError (RtvDim × List Nat) :=
  match kind, layer with
  | Kind.D1 _, none => .ok (.TEXTURE1D, [level, 0, 0])
  | Kind.D1Array _ nlayers, some lid =>
    if lid < nlayers then .ok (.TEXTURE1DARRAY, [level, lid, 1 + lid])
    else .error (.BadLayer lid)
  | Kind.D1Array _ nlayers, none =>
    .ok (.TEXTURE1DARRAY, [level, 0, nlayers])
  | Kind.D2 _ _ AaMode.Single, none => .ok (.TEXTURE2D, [level, 0, 0])
  | Kind.D2 _ _ _, none =>
    if level = 0 then .ok (.TEXTURE2DMS, [0, 0, 0])
    else .error (.BadLevel level)
  | Kind.D2Array _ _ nlayers AaMode.Single, none =>
    .ok (.TEXTURE2DARRAY, [level, 0, nlayers])
  | Kind.D2Array _ _ nlayers AaMode.Single, some lid =>
    if lid < nlayers then .ok (.TEXTURE2DARRAY, [level, lid, 1 + lid])
    else .error (.BadLayer lid)
  | Kind.D2Array _ _ nlayers _, none =>
    if level = 0 then .ok (.TEXTURE2DMSARRAY, [0, nlayers, 0])
    else .error (.BadLevel level)
  | Kind.D2Array _ _ nlayers _, some lid =>
    if level = 0 ∧ lid < nlayers then .ok (.TEXTURE2DMSARRAY, [lid, 1 + lid, 0])
    else .error (.BadLayer lid)
  | Kind.D3 _ _ depth, none => .ok (.TEXTURE3D, [level, 0, depth])
  | Kind.D3 _ _ depth, some lid =>
    if lid < depth then .ok (.TEXTURE3D, [level, lid, 1 + lid])
    else .error (.BadLayer lid)
  | Kind.Cube _, none => .ok (.TEXTURE2DARRAY, [level, 0, 6])
  | Kind.Cube _, some lid =>
    if lid < 6 then .ok (.TEXTURE2DARRAY, [level, lid, 1 + lid])
    else .error (.BadLayer lid)
  | Kind.CubeArray _ nlayers, none =>
    .ok (.TEXTURE2DARRAY, [level, 0, 6 * nlayers])
  | Kind.CubeArray _ nlayers, some lid =>
    if lid < nlayers then
      .ok (.TEXTURE2DARRAY, [level, 6 * lid, 6 * (1 + lid)])
    else .error (.BadLayer lid)
  | Kind.D1 _, some lid => .error (.BadLayer lid)
  | Kind.D2 _ _ _, some lid => .error (.BadLayer lid)

/-- Embedding of `Factory::view_texture_as_render_target_raw` (factory.rs
624-686): resolve dimension and addressing, map the typed format (miss is a
`Channel` error), then the `CreateRenderTargetView` device call; a failing
call is `Unsupported`. -/
def view_texture_as_render_target_raw (env : DeviceEnv) (texFormat : Nat)
    (kind : Kind) (desc : RenderDesc) :
    Except TargetViewError (Nat × RtvNativeDesc) :=
  match rtv_dim_extra kind desc.layer desc.level with
  | .error e => .error e
  | .ok de =>
    match env.map_format (texFormat, desc.channel) true with
    | none => .error (.Channel desc.channel)
    | some fm =>
      match env.createRtv { format := fm, dim := de.1, u := de.2 } with
      | some v => .ok (v, { format := fm, dim := de.1, u := de.2 })
      | none => .error .Unsupported

/-- Modelled from the spec: position of the first-array-slice word of a
2D-array RTV union (`D3D11_TEX2D_ARRAY_RTV`: MipSlice, FirstArraySlice,
ArraySize); the spec describes the addressing tuple as
(mip level, first-array-slice, array-slice-count). -/
def tex2dArrayRtv_firstSlice (u : List Nat) : Nat := u.getD 1 0

/-- Modelled from the spec: position of the array-slice-count word of a
2D-array RTV union. -/
def tex2dArrayRtv_arraySize (u : List Nat) : Nat := u.getD 2 0

/-- C5: the Cube/None row resolves as the claim states (2D-array, first
slice 0, array size 6, i.e. slices [0,6)); but on a CubeArray texture with
2 cube layers and layer selector `Some 1`, the code writes the end index
`6 * (1 + 1) = 12` into the array-slice-count word instead of the count 6,
so the resolved view does not address exactly 6 slices starting at slice 6
— the code disagrees with the claim (and with the spec's own addressing
tuple) on every `Some i` cube-array selector with `i > 0`. -/
theorem c5_rtv_cubearray_slice_count_bug :
    rtv_dim_extra (Kind.Cube 8) none 0 =
      .ok (RtvDim.TEXTURE2DARRAY, [0, 0, 6]) ∧
    tex2dArrayRtv_firstSlice [0, 0, 6] = 0 ∧
    tex2dArrayRtv_arraySize [0, 0, 6] = 6 ∧
    rtv_dim_extra (Kind.CubeArray 8 2) (some 1) 0 =
      .ok (RtvDim.TEXTURE2DARRAY, [0, 6, 12]) ∧
    tex2dArrayRtv_firstSlice [0, 6, 12] = 6 ∧
    tex2dArrayRtv_arraySize [0, 6, 12] = 12 ∧
    (12 : Nat) ≠ 6 :=
  ⟨rfl, rfl, rfl, rfl, rfl, rfl, by decide⟩
